/-
Verification of the chat-store layer of a ChatGPT-style frontend.

Shallow embedding of:
  * `useChatStore`   (src/unnamed/part_000, `useChatStore.ts`): the Message
    Store — active chat pointer plus a map from chat id to message list;
  * `useChatListStore` (src/frontend/src/store/useChatListStore.ts): the
    Session Registry — the sidebar list of chat sessions;
  * `searchChats` (src/frontend/src/components/search/SearchModal.tsx):
    the sidebar search algorithm.

JavaScript specifics modelled explicitly:
  * a JS object used as a string-keyed map becomes an association list
    (`List (String × List Message)`); spread-update `{...m, [k]: v}` replaces
    the key in place or appends it, `delete m[k]` removes it, indexing
    returns an `Option`;
  * `crypto.randomUUID()` and `Date.now()` become explicit parameters
    (`newId`, `now`) of the operations that call them;
  * the falsy test `if (!id)` on a `string | null` holds for both `null`
    and `""`;
  * `state.messagesByChatId[chatId].map(...)` on an absent key throws a
    `TypeError`; `updateMessage` therefore returns `Option ChatState`,
    with `none` for the thrown exception (no state update happens);
  * `Array.prototype.sort` is stable per ES2019; the comparator
    `(a, b) => b.score - a.score` is modelled by the stable
    `List.insertionSort` with relation `b.2 ≤ a.2` (descending by score).
-/
import Mathlib

namespace ChatApp

/-- Message roles; `ChatMessage.tsx` has `type Role = "user" | "assistant"`. -/
inductive Role where
  | user
  | assistant
deriving DecidableEq, Repr

/-- Modelled from the spec: the `Message` record of `src/types/chat.ts`
(the type file itself is not in the sources; its fields `id`, `role`,
`content`, `timestamp` are those the spec's data model lists and the
store code reads). -/
structure Message where
  id : String
  role : Role
  content : String
  timestamp : Nat
deriving DecidableEq, Repr

/-- `ChatSession` of `useChatListStore.ts`: sidebar metadata of one chat. -/
structure ChatSession where
  id : String
  title : String
  createdAt : Nat
deriving DecidableEq, Repr

/-! ### JS object as a string-keyed map (association list) -/

/-- Reading `m[k]` from a JS object: `some v` if the key is present,
`none` (JS `undefined`) otherwise. -/
def lookupKey : List (String × List Message) → String → Option (List Message)
  | [], _ => none
  | p :: rest, k => if p.1 = k then some p.2 else lookupKey rest k

/-- Spread update `{...m, [k]: v}`: replace the key in place when present,
append it when absent. -/
def setKey (m : List (String × List Message)) (k : String)
    (v : List Message) : List (String × List Message) :=
  match m with
  | [] => [(k, v)]
  | p :: rest => if p.1 = k then (k, v) :: rest else p :: setKey rest k v

/-- `delete m[k]`: remove the key. -/
def delKey (m : List (String × List Message)) (k : String) :
    List (String × List Message) :=
  m.filter (fun p => p.1 ≠ k)

/-! ### Session Registry (`useChatListStore`) -/

/-- `addChat`: prepend the new session to the sidebar list. -/
def addChat (chats : List ChatSession) (chat : ChatSession) :
    List ChatSession :=
  chat :: chats

/-- `renameChat`: retitle the session(s) whose id matches. -/
def renameChat (chats : List ChatSession) (id title : String) :
    List ChatSession :=
  chats.map (fun c => if c.id = id then { c with title := title } else c)

/-- `deleteChat`: drop the session whose id matches. -/
def deleteChat (chats : List ChatSession) (id : String) :
    List ChatSession :=
  chats.filter (fun c => c.id ≠ id)

/-- `clearAll`: empty the sidebar list. -/
def clearAll : List ChatSession := []

/-! ### Combined application state

`useChatStore`'s operations also call into `useChatListStore`
(`addChat`, `renameChat`), so both stores are carried together. -/

/-- The two stores: the Session Registry (`chats`) and the Message Store
(`activeChatId`, `messagesByChatId`). -/
structure AppState where
  chats : List ChatSession
  activeChatId : Option String
  messagesByChatId : List (String × List Message)
deriving DecidableEq, Repr

/-- JS falsy test `!id` on `chatId : string | null`: true for `null`
and for the empty string. -/
def isAbsentId : Option String → Bool
  | none => true
  | some s => s = ""

/-- JS `s.slice(0, n)`: the first `n` characters (modelled over the
character list so the kernel can evaluate it). -/
def jsTake (s : String) (n : Nat) : String :=
  ⟨s.toList.take n⟩

/-- `createNewChat`: register a fresh session (title "New Chat", current
timestamp) at the head of the sidebar, activate it, give it an empty
message list, and return its id. `newId` stands for `crypto.randomUUID()`,
`now` for `Date.now()`. -/
def createNewChat (s : AppState) (newId : String) (now : Nat) :
    String × AppState :=
  (newId,
   { chats := addChat s.chats { id := newId, title := "New Chat", createdAt := now }
     activeChatId := some newId
     messagesByChatId := setKey s.messagesByChatId newId [] })

/-- `setActiveChat`: point the store at `id`, initializing its message
list to `[]` when the key is absent (`state.messagesByChatId[id] || []`). -/
def setActiveChat (s : AppState) (id : String) : AppState :=
  { s with
    activeChatId := some id
    messagesByChatId :=
      setKey s.messagesByChatId id ((lookupKey s.messagesByChatId id).getD []) }

/-- `addMessage`: auto-create a chat when `chatId` is falsy (null / ""),
auto-rename on the first user message (`renameChat id (content.slice 0 40)`
when `role === "user"` and the existing list is empty), then append the
message and activate the target chat. -/
def addMessage (s : AppState) (chatId : Option String) (message : Message)
    (newId : String) (now : Nat) : AppState :=
  let idChats :=
    if isAbsentId chatId then
      (newId,
       addChat s.chats { id := newId, title := "New Chat", createdAt := now })
    else
      (chatId.getD "", s.chats)
  let id := idChats.1
  let chats1 := idChats.2
  let messages := (lookupKey s.messagesByChatId id).getD []
  let chats2 :=
    if message.role = Role.user ∧ messages.length = 0 then
      renameChat chats1 id (jsTake message.content 40)
    else chats1
  { chats := chats2
    activeChatId := some id
    messagesByChatId := setKey s.messagesByChatId id (messages ++ [message]) }

/-- `updateMessage`: `if (!chatId) return state` (falsy guard), then
`state.messagesByChatId[chatId].map(msg => msg.id === id ? {...msg, content} : msg)`.
When `chatId` is truthy but has no entry, the indexing yields `undefined`
and `.map` throws a `TypeError`: modelled as `none` (no new state). -/
def updateMessage (s : AppState) (chatId : Option String) (id content : String) :
    Option AppState :=
  if isAbsentId chatId then some s
  else
    let cid := chatId.getD ""
    match lookupKey s.messagesByChatId cid with
    | none => none
    | some msgs =>
        some { s with
               messagesByChatId :=
                 setKey s.messagesByChatId cid
                   (msgs.map (fun msg =>
                     if msg.id = id then { msg with content := content } else msg)) }

/-- `clearChat`: delete the chat's entry from the map and null the active
pointer (the code sets `activeChatId: null` unconditionally). Does not
touch the Session Registry. -/
def clearChat (s : AppState) (chatId : String) : AppState :=
  { s with
    activeChatId := none
    messagesByChatId := delKey s.messagesByChatId chatId }

/-- `clearAllChats`: reset the Message Store. -/
def clearAllChats (s : AppState) : AppState :=
  { s with activeChatId := none, messagesByChatId := [] }

/-! ### Search (`SearchModal.tsx`) -/

/-- JS `s.trim()`: strip whitespace from both ends (modelled over the
character list so the kernel can evaluate it). -/
def jsTrim (s : String) : String :=
  ⟨((s.toList.dropWhile Char.isWhitespace).reverse.dropWhile
      Char.isWhitespace).reverse⟩

/-- JS `s.toLowerCase()` (over the character list). -/
def jsToLower (s : String) : String :=
  ⟨s.toList.map Char.toLower⟩

/-- `normalize`: `s.toLowerCase().trim()`. -/
def normalize (s : String) : String := jsTrim (jsToLower s)

/-- JS `text.includes(token)`: substring test. -/
def strIncludes (text token : String) : Bool :=
  decide (token.toList <:+: text.toList)

/-- JS `text.startsWith(token)`: prefix test. -/
def strStartsWith (text token : String) : Bool :=
  decide (token.toList <+: text.toList)

/-- `scoreMatch`: `score += 10` per token contained in the text,
`score += 15` more per token the text starts with. -/
def scoreMatch (text : String) (tokens : List String) : Nat :=
  tokens.foldl
    (fun score token =>
      let score := if strIncludes text token then score + 10 else score
      if strStartsWith text token then score + 15 else score)
    0

/-- Split a character list at every character satisfying `p` (the
semantics of `String.split`, over lists). -/
def splitChars (p : Char → Bool) (l : List Char) : List (List Char) :=
  l.foldr
    (fun c acc =>
      if p c then [] :: acc
      else
        match acc with
        | [] => [[c]]
        | g :: gs => (c :: g) :: gs)
    [[]]

/-- `normalize(query).split(/\s+/)`: the regex `+` merges whitespace runs,
so splitting at each whitespace character and dropping empty pieces. -/
def queryTokens (query : String) : List String :=
  ((splitChars (fun c => c.isWhitespace) (normalize query).toList).map
    (fun l => String.mk l)).filter (fun t => t ≠ "")

/-- The comparator `(a, b) => b.score - a.score` under ES2019's stable
`Array.prototype.sort`: stable insertion sort, descending by score. -/
def sortByScoreDesc (l : List (ChatSession × Nat)) : List (ChatSession × Nat) :=
  List.insertionSort (fun a b => b.2 ≤ a.2) l

/-- `searchChats`: identity on a blank query; otherwise score each chat's
normalized title against the query tokens, keep positive scores, sort
descending (stably), and return the chats. -/
def searchChats (query : String) (chats : List ChatSession) :
    List ChatSession :=
  if jsTrim query = "" then chats
  else
    let tokens := queryTokens query
    (sortByScoreDesc
      ((chats.map (fun chat => (chat, scoreMatch (normalize chat.title) tokens))).filter
        (fun r => 0 < r.2))).map (fun r => r.1)

/-- Score of one session for a given query, as the claims speak of it. -/
def chatScore (query : String) (c : ChatSession) : Nat :=
  scoreMatch (normalize c.title) (queryTokens query)

/-- The spec's active-pointer invariant: when `activeChatId` is non-null it
references a key present in `messagesByChatId`. -/
def activeConsistent (s : AppState) : Bool :=
  s.activeChatId.all (fun id => (lookupKey s.messagesByChatId id).isSome)

/-! ### Map lemmas -/

theorem lookupKey_setKey_self (m : List (String × List Message))
    (k : String) (v : List Message) :
    lookupKey (setKey m k v) k = some v := by
  induction m with
  | nil => simp [setKey, lookupKey]
  | cons p rest ih =>
    by_cases h : p.1 = k
    · simp [setKey, h, lookupKey]
    · simp [setKey, h, lookupKey, ih]

theorem lookupKey_setKey_ne (m : List (String × List Message))
    (k k' : String) (v : List Message) (h : k' ≠ k) :
    lookupKey (setKey m k v) k' = lookupKey m k' := by
  induction m with
  | nil => simp [setKey, lookupKey, Ne.symm h]
  | cons p rest ih =>
    by_cases hp : p.1 = k
    · have h2 : ¬(p.1 = k') := fun hc => h (hc.symm.trans hp)
      simp [setKey, hp, lookupKey, Ne.symm h, h2]
    · by_cases hp' : p.1 = k'
      · simp [setKey, hp, lookupKey, hp', h]
      · simp [setKey, hp, lookupKey, hp', ih]

theorem delKey_cons (p : String × List Message)
    (rest : List (String × List Message)) (k : String) :
    delKey (p :: rest) k =
      if p.1 = k then delKey rest k else p :: delKey rest k := by
  by_cases hp : p.1 = k <;> simp [delKey, List.filter_cons, hp]

theorem lookupKey_delKey_self (m : List (String × List Message)) (k : String) :
    lookupKey (delKey m k) k = none := by
  induction m with
  | nil => simp [delKey, lookupKey]
  | cons p rest ih =>
    rw [delKey_cons]
    by_cases hp : p.1 = k
    · rw [if_pos hp]; exact ih
    · rw [if_neg hp]; simp [lookupKey, hp, ih]

theorem lookupKey_delKey_ne (m : List (String × List Message))
    (k k' : String) (h : k' ≠ k) :
    lookupKey (delKey m k) k' = lookupKey m k' := by
  induction m with
  | nil => simp [delKey, lookupKey]
  | cons p rest ih =>
    rw [delKey_cons]
    by_cases hp : p.1 = k
    · have h2 : ¬(p.1 = k') := fun hc => h (hc.symm.trans hp)
      rw [if_pos hp, ih]
      simp [lookupKey, h2]
    · rw [if_neg hp]
      by_cases hp' : p.1 = k' <;> simp [lookupKey, hp', ih]

/-! ### Registry lemmas -/

theorem renameChat_title_of_mem {chats : List ChatSession} {id title : String}
    {c : ChatSession} (hc : c ∈ renameChat chats id title) (hid : c.id = id) :
    c.title = title := by
  simp only [renameChat] at hc
  rcases List.mem_map.mp hc with ⟨c0, _, rfl⟩
  by_cases h : c0.id = id
  · simp [h]
  · simp only [h, if_false] at hid ⊢

theorem renameChat_of_not_mem {chats : List ChatSession} {id : String}
    (title : String) (h : ∀ c ∈ chats, c.id ≠ id) :
    renameChat chats id title = chats := by
  induction chats with
  | nil => simp [renameChat]
  | cons c0 rest ih =>
    have h0 : c0.id ≠ id := h c0 (List.mem_cons_self c0 rest)
    have hrest : ∀ c ∈ rest, c.id ≠ id := fun c hc => h c (List.mem_cons_of_mem c0 hc)
    simp only [renameChat, List.map] at ih ⊢
    simp [h0, ih hrest]

/-! ### Claim theorems -/

/-- C7: for every session list and every query whose trimmed form is empty,
`searchChats` returns the input list unchanged — same elements, same order. -/
theorem C7_empty_query_identity (query : String) (chats : List ChatSession)
    (h : jsTrim query = "") :
    searchChats query chats = chats := by
  simp [searchChats, h]

theorem C7_empty_query_identity_witness :
    jsTrim "  " = "" ∧
      searchChats "  " [{ id := "1", title := "Apple", createdAt := 1 }] =
        [{ id := "1", title := "Apple", createdAt := 1 }] :=
  ⟨by decide,
   C7_empty_query_identity "  " [{ id := "1", title := "Apple", createdAt := 1 }]
     (by decide)⟩

/-- A two-chat state with active chat `"a"`: clearing the non-active chat
`"b"` exhibits the unconditional nulling of the active pointer. -/
def twoChatState : AppState :=
  { chats := [{ id := "a", title := "Hello", createdAt := 1 }]
    activeChatId := some "a"
    messagesByChatId := [("a", []), ("b", [])] }

/-- C4 counterexample: clearing session `"b"` while `"a"` is active nulls
the active pointer, though the claim says it stays at `"a"`. -/
theorem C4_counterexample :
    twoChatState.activeChatId = some "a" ∧ ("b" : String) ≠ "a" ∧
      (clearChat twoChatState "b").activeChatId ≠ twoChatState.activeChatId := by
  decide

/-- C4 (amended): after `clearChat s sid` the mapping has no entry for
`sid`, every other key is unchanged, the Session Registry is untouched,
and the active pointer is null unconditionally — also when `sid` was not
the active session. -/
theorem C4_clearChat_amended (s : AppState) (sid k : String) (hk : k ≠ sid) :
    (clearChat s sid).activeChatId = none ∧
      lookupKey (clearChat s sid).messagesByChatId sid = none ∧
      lookupKey (clearChat s sid).messagesByChatId k =
        lookupKey s.messagesByChatId k ∧
      (clearChat s sid).chats = s.chats :=
  ⟨rfl, lookupKey_delKey_self s.messagesByChatId sid,
   lookupKey_delKey_ne s.messagesByChatId sid k hk, rfl⟩

theorem C4_clearChat_amended_witness :
    ("a" : String) ≠ "b" ∧
      ((clearChat twoChatState "b").activeChatId = none ∧
        lookupKey (clearChat twoChatState "b").messagesByChatId "b" = none ∧
        lookupKey (clearChat twoChatState "b").messagesByChatId "a" =
          lookupKey twoChatState.messagesByChatId "a" ∧
        (clearChat twoChatState "b").chats = twoChatState.chats) :=
  ⟨by decide, C4_clearChat_amended twoChatState "b" "a" (by decide)⟩

/-- C3 counterexample: in the empty state, updating a message of the
unknown session `"x"` is not a silent no-op — the indexing yields
`undefined` and `.map` throws, modelled as `none`. -/
theorem C3_counterexample :
    lookupKey (AppState.mk [] none []).messagesByChatId "x" = none ∧
      updateMessage (AppState.mk [] none []) (some "x") "m" "c" ≠
        some (AppState.mk [] none []) ∧
      updateMessage (AppState.mk [] none []) (some "x") "m" "c" = none := by
  decide

/-- C3 (amended): `updateMessage` is a silent no-op when the session id is
null or the empty string; when it is a non-empty id with no entry in the
mapping, the call throws a `TypeError` (modelled `none`) instead of
no-opping. -/
theorem C3_updateMessage_amended (s : AppState) (sid mid content : String)
    (hne : sid ≠ "") (hmiss : lookupKey s.messagesByChatId sid = none) :
    updateMessage s none mid content = some s ∧
      updateMessage s (some "") mid content = some s ∧
      updateMessage s (some sid) mid content = none := by
  refine ⟨rfl, rfl, ?_⟩
  simp [updateMessage, isAbsentId, hne, hmiss]

theorem C3_updateMessage_amended_witness :
    ("x" : String) ≠ "" ∧
      lookupKey (AppState.mk [] none []).messagesByChatId "x" = none ∧
      (updateMessage (AppState.mk [] none []) none "m" "c" =
          some (AppState.mk [] none []) ∧
        updateMessage (AppState.mk [] none []) (some "") "m" "c" =
          some (AppState.mk [] none []) ∧
        updateMessage (AppState.mk [] none []) (some "x") "m" "c" = none) :=
  ⟨by decide, by decide,
   C3_updateMessage_amended (AppState.mk [] none []) "x" "m" "c"
     (by decide) (by decide)⟩


/-- C5: `createNewChat` returns the freshly generated id; afterwards the
new session (title "New Chat", current timestamp) sits at the head of the
Session Registry, it is active, its message sequence exists and is empty,
and every other key of the message mapping is unchanged. Freshness of the
generated id in both stores is the stated precondition. -/
theorem C5_createNewChat (s : AppState) (newId k : String) (now : Nat)
    (_hreg : ∀ c ∈ s.chats, c.id ≠ newId)
    (_hfresh : lookupKey s.messagesByChatId newId = none)
    (hk : k ≠ newId) :
    (createNewChat s newId now).1 = newId ∧
      (createNewChat s newId now).2.chats =
        { id := newId, title := "New Chat", createdAt := now } :: s.chats ∧
      (createNewChat s newId now).2.activeChatId = some newId ∧
      lookupKey (createNewChat s newId now).2.messagesByChatId newId =
        some [] ∧
      lookupKey (createNewChat s newId now).2.messagesByChatId k =
        lookupKey s.messagesByChatId k :=
  ⟨rfl, rfl, rfl, lookupKey_setKey_self s.messagesByChatId newId [],
   lookupKey_setKey_ne s.messagesByChatId newId k [] hk⟩

theorem C5_createNewChat_witness :
    (∀ c ∈ (AppState.mk [⟨"a", "T", 1⟩] (some "a") [("a", [])]).chats,
        c.id ≠ "n") ∧
      lookupKey (AppState.mk [⟨"a", "T", 1⟩] (some "a")
        [("a", [])]).messagesByChatId "n" = none ∧
      ("a" : String) ≠ "n" ∧
      ((createNewChat (AppState.mk [⟨"a", "T", 1⟩] (some "a") [("a", [])])
          "n" 7).1 = "n" ∧
        (createNewChat (AppState.mk [⟨"a", "T", 1⟩] (some "a") [("a", [])])
          "n" 7).2.chats =
          { id := "n", title := "New Chat", createdAt := 7 } ::
            (AppState.mk [⟨"a", "T", 1⟩] (some "a") [("a", [])]).chats ∧
        (createNewChat (AppState.mk [⟨"a", "T", 1⟩] (some "a") [("a", [])])
          "n" 7).2.activeChatId = some "n" ∧
        lookupKey (createNewChat (AppState.mk [⟨"a", "T", 1⟩] (some "a")
          [("a", [])]) "n" 7).2.messagesByChatId "n" = some [] ∧
        lookupKey (createNewChat (AppState.mk [⟨"a", "T", 1⟩] (some "a")
          [("a", [])]) "n" 7).2.messagesByChatId "a" =
          lookupKey (AppState.mk [⟨"a", "T", 1⟩] (some "a")
            [("a", [])]).messagesByChatId "a") :=
  ⟨by decide, by decide, by decide,
   C5_createNewChat (AppState.mk [⟨"a", "T", 1⟩] (some "a") [("a", [])])
     "n" "a" 7 (by decide) (by decide) (by decide)⟩

/-- C2: appending with a null target auto-creates one session — registered
with title "New Chat" and then auto-renamed exactly when the message is a
user message — appends the message as its sole message, activates it, and
leaves every other session's message sequence unchanged. -/
theorem C2_addMessage_null_creates (s : AppState) (msg : Message)
    (newId k : String) (now : Nat)
    (hfresh : lookupKey s.messagesByChatId newId = none)
    (hreg : ∀ c ∈ s.chats, c.id ≠ newId)
    (hk : k ≠ newId) :
    (addMessage s none msg newId now).activeChatId = some newId ∧
      lookupKey (addMessage s none msg newId now).messagesByChatId newId =
        some [msg] ∧
      lookupKey (addMessage s none msg newId now).messagesByChatId k =
        lookupKey s.messagesByChatId k ∧
      (addMessage s none msg newId now).chats =
        { id := newId,
          title :=
            if msg.role = Role.user then jsTake msg.content 40 else "New Chat",
          createdAt := now } :: s.chats := by
  refine ⟨rfl, ?_, ?_, ?_⟩
  · simp [addMessage, isAbsentId, hfresh, lookupKey_setKey_self]
  · simp [addMessage, isAbsentId, lookupKey_setKey_ne _ _ _ _ hk]
  · by_cases hu : msg.role = Role.user
    · have htail := renameChat_of_not_mem (jsTake msg.content 40) hreg
      simp only [renameChat] at htail
      simp [addMessage, isAbsentId, hu, hfresh, addChat, renameChat, htail]
    · have ha : msg.role = Role.assistant := by
        cases hr : msg.role
        · exact absurd hr hu
        · rfl
      simp [addMessage, isAbsentId, hfresh, ha, addChat]


/-- C10: the empty string as session id is treated like null — `!id` is
true for both — so the chat is auto-created: the registry gains the new
session (auto-renamed for a user message), the message lands under the
fresh id and not under the key `""`, and the fresh id becomes active. -/
theorem C10_empty_string_like_null (s : AppState) (msg : Message)
    (newId k : String) (now : Nat)
    (hfresh : lookupKey s.messagesByChatId newId = none)
    (hreg : ∀ c ∈ s.chats, c.id ≠ newId)
    (hk : k ≠ newId) :
    addMessage s (some "") msg newId now = addMessage s none msg newId now ∧
      (addMessage s (some "") msg newId now).activeChatId = some newId ∧
      lookupKey (addMessage s (some "") msg newId now).messagesByChatId
        newId = some [msg] ∧
      lookupKey (addMessage s (some "") msg newId now).messagesByChatId k =
        lookupKey s.messagesByChatId k ∧
      (addMessage s (some "") msg newId now).chats =
        { id := newId,
          title :=
            if msg.role = Role.user then jsTake msg.content 40 else "New Chat",
          createdAt := now } :: s.chats := by
  have heq : addMessage s (some "") msg newId now =
      addMessage s none msg newId now := rfl
  rw [heq]
  refine ⟨rfl, rfl, ?_, ?_, ?_⟩
  · simp [addMessage, isAbsentId, hfresh, lookupKey_setKey_self]
  · simp [addMessage, isAbsentId, lookupKey_setKey_ne _ _ _ _ hk]
  · by_cases hu : msg.role = Role.user
    · have htail := renameChat_of_not_mem (jsTake msg.content 40) hreg
      simp only [renameChat] at htail
      simp [addMessage, isAbsentId, hu, hfresh, addChat, renameChat, htail]
    · have ha : msg.role = Role.assistant := by
        cases hr : msg.role
        · exact absurd hr hu
        · rfl
      simp [addMessage, isAbsentId, hfresh, ha, addChat]

/-- C1: appending to an explicitly targeted session `sid` renames it in the
Session Registry to the first 40 characters of the content exactly when the
message is a user message and the session's sequence was empty (or absent)
beforehand; an assistant message, or a non-empty prior sequence, leaves the
registry unchanged. -/
theorem C1_auto_rename (s : AppState) (sid : String) (msg : Message)
    (newId : String) (now : Nat) (c : ChatSession) (hsid : sid ≠ "") :
    ((msg.role = Role.user ∧
        ((lookupKey s.messagesByChatId sid).getD []).length = 0) →
      c ∈ (addMessage s (some sid) msg newId now).chats → c.id = sid →
      c.title = jsTake msg.content 40) ∧
    ((msg.role = Role.assistant ∨
        ((lookupKey s.messagesByChatId sid).getD []).length ≠ 0) →
      (addMessage s (some sid) msg newId now).chats = s.chats) := by
  have habs : isAbsentId (some sid) = false := by simp [isAbsentId, hsid]
  constructor
  · rintro ⟨hu, hlen⟩ hc hcid
    have hchats : (addMessage s (some sid) msg newId now).chats =
        renameChat s.chats sid (jsTake msg.content 40) := by
      simp [addMessage, habs, hu, hlen]
    rw [hchats] at hc
    exact renameChat_title_of_mem hc hcid
  · intro hcase
    have hcond : ¬(msg.role = Role.user ∧
        ((lookupKey s.messagesByChatId sid).getD []).length = 0) := by
      rcases hcase with ha | hlen
      · rintro ⟨hu, -⟩
        rw [ha] at hu
        exact Role.noConfusion hu
      · rintro ⟨-, h0⟩
        exact hlen h0
    simp only [addMessage, habs, Bool.false_eq_true, if_false]
    simp
    intro hu hempty
    exact absurd ⟨hu, by rw [hempty]; rfl⟩ hcond

theorem C2_addMessage_null_creates_witness :
    lookupKey (AppState.mk [] none []).messagesByChatId "n" = none ∧
      (∀ c ∈ (AppState.mk [] none []).chats, c.id ≠ "n") ∧
      ("z" : String) ≠ "n" ∧
      ((addMessage (AppState.mk [] none [])
          none ⟨"m", Role.user, "hello world", 2⟩ "n" 5).activeChatId =
          some "n" ∧
        lookupKey (addMessage (AppState.mk [] none [])
          none ⟨"m", Role.user, "hello world", 2⟩ "n" 5).messagesByChatId
          "n" = some [⟨"m", Role.user, "hello world", 2⟩] ∧
        lookupKey (addMessage (AppState.mk [] none [])
          none ⟨"m", Role.user, "hello world", 2⟩ "n" 5).messagesByChatId
          "z" = lookupKey (AppState.mk [] none []).messagesByChatId "z" ∧
        (addMessage (AppState.mk [] none [])
          none ⟨"m", Role.user, "hello world", 2⟩ "n" 5).chats =
          { id := "n",
            title :=
              if (⟨"m", Role.user, "hello world", 2⟩ : Message).role = Role.user
              then jsTake (⟨"m", Role.user, "hello world", 2⟩ : Message).content 40
              else "New Chat",
            createdAt := 5 } :: (AppState.mk [] none []).chats) :=
  ⟨by decide, by decide, by decide,
   C2_addMessage_null_creates (AppState.mk [] none [])
     ⟨"m", Role.user, "hello world", 2⟩ "n" "z" 5
     (by decide) (by decide) (by decide)⟩

theorem C10_empty_string_like_null_witness :
    lookupKey (AppState.mk [⟨"b", "T", 1⟩] (some "b")
        [("b", [⟨"x", Role.assistant, "y", 0⟩])]).messagesByChatId "n" =
        none ∧
      (∀ c ∈ (AppState.mk [⟨"b", "T", 1⟩] (some "b")
        [("b", [⟨"x", Role.assistant, "y", 0⟩])]).chats, c.id ≠ "n") ∧
      ("" : String) ≠ "n" ∧
      (addMessage (AppState.mk [⟨"b", "T", 1⟩] (some "b")
          [("b", [⟨"x", Role.assistant, "y", 0⟩])])
          (some "") ⟨"m", Role.user, "hi", 2⟩ "n" 5 =
        addMessage (AppState.mk [⟨"b", "T", 1⟩] (some "b")
          [("b", [⟨"x", Role.assistant, "y", 0⟩])])
          none ⟨"m", Role.user, "hi", 2⟩ "n" 5 ∧
        (addMessage (AppState.mk [⟨"b", "T", 1⟩] (some "b")
          [("b", [⟨"x", Role.assistant, "y", 0⟩])])
          (some "") ⟨"m", Role.user, "hi", 2⟩ "n" 5).activeChatId =
          some "n" ∧
        lookupKey (addMessage (AppState.mk [⟨"b", "T", 1⟩] (some "b")
          [("b", [⟨"x", Role.assistant, "y", 0⟩])])
          (some "") ⟨"m", Role.user, "hi", 2⟩ "n" 5).messagesByChatId "n" =
          some [⟨"m", Role.user, "hi", 2⟩] ∧
        lookupKey (addMessage (AppState.mk [⟨"b", "T", 1⟩] (some "b")
          [("b", [⟨"x", Role.assistant, "y", 0⟩])])
          (some "") ⟨"m", Role.user, "hi", 2⟩ "n" 5).messagesByChatId "" =
          lookupKey (AppState.mk [⟨"b", "T", 1⟩] (some "b")
            [("b", [⟨"x", Role.assistant, "y", 0⟩])]).messagesByChatId "" ∧
        (addMessage (AppState.mk [⟨"b", "T", 1⟩] (some "b")
          [("b", [⟨"x", Role.assistant, "y", 0⟩])])
          (some "") ⟨"m", Role.user, "hi", 2⟩ "n" 5).chats =
          { id := "n",
            title :=
              if (⟨"m", Role.user, "hi", 2⟩ : Message).role = Role.user
              then jsTake (⟨"m", Role.user, "hi", 2⟩ : Message).content 40
              else "New Chat",
            createdAt := 5 } ::
            (AppState.mk [⟨"b", "T", 1⟩] (some "b")
              [("b", [⟨"x", Role.assistant, "y", 0⟩])]).chats) :=
  ⟨by decide, by decide, by decide,
   C10_empty_string_like_null
     (AppState.mk [⟨"b", "T", 1⟩] (some "b")
       [("b", [⟨"x", Role.assistant, "y", 0⟩])])
     ⟨"m", Role.user, "hi", 2⟩ "n" "" 5
     (by decide) (by decide) (by decide)⟩

theorem C1_auto_rename_witness :
    ("b" : String) ≠ "" ∧
      ((((⟨"m1", Role.user, "hello world", 2⟩ : Message).role = Role.user ∧
          ((lookupKey (AppState.mk [⟨"b", "Hello", 1⟩] none
            []).messagesByChatId "b").getD []).length = 0) →
        (⟨"b", "hello world", 1⟩ : ChatSession) ∈
          (addMessage (AppState.mk [⟨"b", "Hello", 1⟩] none [])
            (some "b") ⟨"m1", Role.user, "hello world", 2⟩ "n" 5).chats →
        (⟨"b", "hello world", 1⟩ : ChatSession).id = "b" →
        (⟨"b", "hello world", 1⟩ : ChatSession).title =
          jsTake (⟨"m1", Role.user, "hello world", 2⟩ : Message).content 40) ∧
      (((⟨"m1", Role.user, "hello world", 2⟩ : Message).role = Role.assistant ∨
          ((lookupKey (AppState.mk [⟨"b", "Hello", 1⟩] none
            []).messagesByChatId "b").getD []).length ≠ 0) →
        (addMessage (AppState.mk [⟨"b", "Hello", 1⟩] none [])
          (some "b") ⟨"m1", Role.user, "hello world", 2⟩ "n" 5).chats =
          (AppState.mk [⟨"b", "Hello", 1⟩] none []).chats)) :=
  ⟨by decide,
   C1_auto_rename (AppState.mk [⟨"b", "Hello", 1⟩] none []) "b"
     ⟨"m1", Role.user, "hello world", 2⟩ "n" 5 ⟨"b", "hello world", 1⟩
     (by decide)⟩

/-- C8: when the targeted session exists, `updateMessage` keeps the active
pointer, the Session Registry and every other session's sequence unchanged;
the targeted sequence keeps its length, and position `i` holds the old
message verbatim except that its `content` is replaced exactly when its id
matches — id, role, timestamp and position are preserved. -/
theorem C8_updateMessage_preserves (s s' : AppState)
    (sid mid content k : String) (msgs : List Message) (i : Nat)
    (hsid : sid ≠ "")
    (hmsgs : lookupKey s.messagesByChatId sid = some msgs)
    (hstep : updateMessage s (some sid) mid content = some s')
    (hk : k ≠ sid) :
    s'.activeChatId = s.activeChatId ∧
      s'.chats = s.chats ∧
      lookupKey s'.messagesByChatId k = lookupKey s.messagesByChatId k ∧
      ((lookupKey s'.messagesByChatId sid).getD []).length = msgs.length ∧
      ((lookupKey s'.messagesByChatId sid).getD [])[i]? =
        (msgs[i]?).map
          (fun m => if m.id = mid then { m with content := content } else m) := by
  have habs : isAbsentId (some sid) = false := by simp [isAbsentId, hsid]
  simp only [updateMessage, habs, Bool.false_eq_true, if_false,
    Option.getD_some, hmsgs] at hstep
  have hs' : s' =
      { s with
        messagesByChatId :=
          setKey s.messagesByChatId sid
            (msgs.map (fun m =>
              if m.id = mid then { m with content := content } else m)) } :=
    (Option.some.inj hstep).symm
  subst hs'
  refine ⟨rfl, rfl, lookupKey_setKey_ne _ _ _ _ hk, ?_, ?_⟩
  · rw [lookupKey_setKey_self]
    simp
  · rw [lookupKey_setKey_self]
    simp [List.getElem?_map]

theorem C8_updateMessage_preserves_witness :
    ("a" : String) ≠ "" ∧
      lookupKey (AppState.mk [] (some "a")
        [("a", [⟨"m1", Role.user, "old", 1⟩, ⟨"m2", Role.assistant, "keep", 2⟩]),
         ("z", [])]).messagesByChatId "a" =
        some [⟨"m1", Role.user, "old", 1⟩, ⟨"m2", Role.assistant, "keep", 2⟩] ∧
      updateMessage (AppState.mk [] (some "a")
        [("a", [⟨"m1", Role.user, "old", 1⟩, ⟨"m2", Role.assistant, "keep", 2⟩]),
         ("z", [])]) (some "a") "m1" "new" =
        some (AppState.mk [] (some "a")
          [("a", [⟨"m1", Role.user, "new", 1⟩, ⟨"m2", Role.assistant, "keep", 2⟩]),
           ("z", [])]) ∧
      ("z" : String) ≠ "a" ∧
      ((AppState.mk [] (some "a")
          [("a", [⟨"m1", Role.user, "new", 1⟩, ⟨"m2", Role.assistant, "keep", 2⟩]),
           ("z", [])]).activeChatId =
        (AppState.mk [] (some "a")
          [("a", [⟨"m1", Role.user, "old", 1⟩, ⟨"m2", Role.assistant, "keep", 2⟩]),
           ("z", [])]).activeChatId ∧
        (AppState.mk [] (some "a")
          [("a", [⟨"m1", Role.user, "new", 1⟩, ⟨"m2", Role.assistant, "keep", 2⟩]),
           ("z", [])]).chats =
        (AppState.mk [] (some "a")
          [("a", [⟨"m1", Role.user, "old", 1⟩, ⟨"m2", Role.assistant, "keep", 2⟩]),
           ("z", [])]).chats ∧
        lookupKey (AppState.mk [] (some "a")
          [("a", [⟨"m1", Role.user, "new", 1⟩, ⟨"m2", Role.assistant, "keep", 2⟩]),
           ("z", [])]).messagesByChatId "z" =
        lookupKey (AppState.mk [] (some "a")
          [("a", [⟨"m1", Role.user, "old", 1⟩, ⟨"m2", Role.assistant, "keep", 2⟩]),
           ("z", [])]).messagesByChatId "z" ∧
        ((lookupKey (AppState.mk [] (some "a")
          [("a", [⟨"m1", Role.user, "new", 1⟩, ⟨"m2", Role.assistant, "keep", 2⟩]),
           ("z", [])]).messagesByChatId "a").getD []).length =
        ([⟨"m1", Role.user, "old", 1⟩,
          (⟨"m2", Role.assistant, "keep", 2⟩ : Message)]).length ∧
        ((lookupKey (AppState.mk [] (some "a")
          [("a", [⟨"m1", Role.user, "new", 1⟩, ⟨"m2", Role.assistant, "keep", 2⟩]),
           ("z", [])]).messagesByChatId "a").getD [])[0]? =
        (([⟨"m1", Role.user, "old", 1⟩,
           (⟨"m2", Role.assistant, "keep", 2⟩ : Message)])[0]?).map
          (fun m => if m.id = "m1" then { m with content := "new" } else m)) :=
  ⟨by decide, by decide, by decide, by decide,
   C8_updateMessage_preserves
     (AppState.mk [] (some "a")
       [("a", [⟨"m1", Role.user, "old", 1⟩, ⟨"m2", Role.assistant, "keep", 2⟩]),
        ("z", [])])
     (AppState.mk [] (some "a")
       [("a", [⟨"m1", Role.user, "new", 1⟩, ⟨"m2", Role.assistant, "keep", 2⟩]),
        ("z", [])])
     "a" "m1" "new" "z"
     [⟨"m1", Role.user, "old", 1⟩, ⟨"m2", Role.assistant, "keep", 2⟩] 0
     (by decide) (by decide) (by decide) (by decide)⟩

theorem activeConsistent_setKey (s : AppState) (k : String) (v : List Message)
    (hs : activeConsistent s = true) :
    activeConsistent
      { s with messagesByChatId := setKey s.messagesByChatId k v } = true := by
  simp only [activeConsistent] at hs ⊢
  cases ha : s.activeChatId with
  | none => simp [ha]
  | some a =>
    rw [ha] at hs
    simp only [ha, Option.all_some] at hs ⊢
    by_cases hak : a = k
    · subst hak
      simp [lookupKey_setKey_self]
    · rw [lookupKey_setKey_ne _ _ _ _ hak]
      exact hs

/-- C9: every Message Store operation preserves the invariant that a
non-null active pointer references a key of the mapping; `setActiveChat`
initializes an unknown id to the empty sequence and preserves a known
id's history. -/
theorem C9_active_pointer_invariant (s : AppState)
    (id newId mid content : String) (cid : Option String) (msg : Message)
    (now : Nat) (msgs : List Message)
    (hs : activeConsistent s = true) :
    activeConsistent (createNewChat s newId now).2 = true ∧
      activeConsistent (setActiveChat s id) = true ∧
      (lookupKey s.messagesByChatId id = none →
        lookupKey (setActiveChat s id).messagesByChatId id = some []) ∧
      (lookupKey s.messagesByChatId id = some msgs →
        lookupKey (setActiveChat s id).messagesByChatId id = some msgs) ∧
      activeConsistent (addMessage s cid msg newId now) = true ∧
      activeConsistent ((updateMessage s cid mid content).getD s) = true ∧
      activeConsistent (clearChat s id) = true ∧
      activeConsistent (clearAllChats s) = true := by
  refine ⟨?_, ?_, ?_, ?_, ?_, ?_, ?_, ?_⟩
  · simp [createNewChat, activeConsistent, lookupKey_setKey_self]
  · simp [setActiveChat, activeConsistent, lookupKey_setKey_self]
  · intro hnone
    simp [setActiveChat, hnone, lookupKey_setKey_self]
  · intro hsome
    simp [setActiveChat, hsome, lookupKey_setKey_self]
  · simp [addMessage, activeConsistent, lookupKey_setKey_self]
  · by_cases habs : isAbsentId cid = true
    · simp [updateMessage, habs, hs]
    · have habs' : isAbsentId cid = false := by
        revert habs
        cases isAbsentId cid <;> simp
      cases hl : lookupKey s.messagesByChatId (cid.getD "") with
      | none => simp [updateMessage, habs', hl, hs]
      | some msgs0 =>
        simp only [updateMessage, habs', Bool.false_eq_true, if_false, hl,
          Option.getD_some]
        exact activeConsistent_setKey s (cid.getD "") _ hs
  · simp [clearChat, activeConsistent]
  · simp [clearAllChats, activeConsistent]

theorem C9_active_pointer_invariant_witness :
    activeConsistent (AppState.mk [] (some "a") [("a", [])]) = true ∧
      (activeConsistent
          (createNewChat (AppState.mk [] (some "a") [("a", [])]) "n" 3).2 =
          true ∧
        activeConsistent
          (setActiveChat (AppState.mk [] (some "a") [("a", [])]) "b") = true ∧
        (lookupKey (AppState.mk [] (some "a") [("a", [])]).messagesByChatId
            "b" = none →
          lookupKey (setActiveChat (AppState.mk [] (some "a") [("a", [])])
            "b").messagesByChatId "b" = some []) ∧
        (lookupKey (AppState.mk [] (some "a") [("a", [])]).messagesByChatId
            "b" = some [] →
          lookupKey (setActiveChat (AppState.mk [] (some "a") [("a", [])])
            "b").messagesByChatId "b" = some []) ∧
        activeConsistent
          (addMessage (AppState.mk [] (some "a") [("a", [])]) (some "a")
            ⟨"m", Role.user, "hi", 1⟩ "n" 3) = true ∧
        activeConsistent
          ((updateMessage (AppState.mk [] (some "a") [("a", [])]) (some "a")
            "m" "c").getD (AppState.mk [] (some "a") [("a", [])])) = true ∧
        activeConsistent
          (clearChat (AppState.mk [] (some "a") [("a", [])]) "b") = true ∧
        activeConsistent
          (clearAllChats (AppState.mk [] (some "a") [("a", [])])) = true) :=
  ⟨by decide,
   C9_active_pointer_invariant (AppState.mk [] (some "a") [("a", [])])
     "b" "n" "m" "c" (some "a") ⟨"m", Role.user, "hi", 1⟩ 3 []
     (by decide)⟩

/-! ### Search lemmas -/

theorem scoreMatch_foldl (text : String) (tokens : List String) (acc : Nat) :
    tokens.foldl
      (fun score token =>
        let score := if strIncludes text token then score + 10 else score
        if strStartsWith text token then score + 15 else score) acc =
      acc + 10 * tokens.countP (fun t => strIncludes text t)
        + 15 * tokens.countP (fun t => strStartsWith text t) := by
  induction tokens generalizing acc with
  | nil => simp
  | cons t ts ih =>
    simp only [List.foldl_cons, List.countP_cons]
    rw [ih]
    by_cases h1 : strIncludes text t <;> by_cases h2 : strStartsWith text t <;>
      simp [h1, h2] <;> ring

/-- The fold in `scoreMatch` computes 10 points per token contained in the
text plus 15 further points per token the text starts with. -/
theorem scoreMatch_eq_countP (text : String) (tokens : List String) :
    scoreMatch text tokens =
      10 * tokens.countP (fun t => strIncludes text t)
        + 15 * tokens.countP (fun t => strStartsWith text t) := by
  simpa using scoreMatch_foldl text tokens 0

theorem filter_orderedInsert_score (v : Nat) (x : ChatSession × Nat)
    (l : List (ChatSession × Nat)) :
    (List.orderedInsert (fun a b => b.2 ≤ a.2) x l).filter
        (fun p => p.2 = v) =
      if x.2 = v then x :: l.filter (fun p => p.2 = v)
      else l.filter (fun p => p.2 = v) := by
  induction l with
  | nil =>
    simp only [List.orderedInsert]
    by_cases hxv : x.2 = v <;> simp [List.filter_cons, hxv]
  | cons b l ih =>
    simp only [List.orderedInsert]
    by_cases hbx : b.2 ≤ x.2
    · rw [if_pos hbx]
      by_cases hxv : x.2 = v <;> simp [List.filter_cons, hxv]
    · rw [if_neg hbx]
      by_cases hxv : x.2 = v
      · have hbv : ¬(b.2 = v) := by omega
        simp [List.filter_cons, hbv, ih, hxv]
      · by_cases hbv : b.2 = v <;> simp [List.filter_cons, hbv, ih, hxv]

/-- Stability of the modelled sort: the sublist of entries at any fixed
score is returned in its original order. -/
theorem filter_sortByScoreDesc (v : Nat) (l : List (ChatSession × Nat)) :
    (sortByScoreDesc l).filter (fun p => p.2 = v) =
      l.filter (fun p => p.2 = v) := by
  induction l with
  | nil => rfl
  | cons x l ih =>
    simp only [sortByScoreDesc, List.insertionSort] at ih ⊢
    rw [filter_orderedInsert_score]
    by_cases hxv : x.2 = v <;> simp [List.filter_cons, hxv, ih]

theorem sorted_sortByScoreDesc (l : List (ChatSession × Nat)) :
    (sortByScoreDesc l).Pairwise (fun a b => b.2 ≤ a.2) := by
  haveI h1 : IsTotal (ChatSession × Nat) (fun a b => b.2 ≤ a.2) :=
    ⟨fun a b => Nat.le_total b.2 a.2⟩
  haveI h2 : IsTrans (ChatSession × Nat) (fun a b => b.2 ≤ a.2) :=
    ⟨fun a b c hab hbc => Nat.le_trans hbc hab⟩
  exact List.sorted_insertionSort _ l

theorem perm_sortByScoreDesc (l : List (ChatSession × Nat)) :
    (sortByScoreDesc l).Perm l :=
  List.perm_insertionSort _ l

/-- C6: for a non-blank query, each session's score is 10 per token of the
lowercased-trimmed-whitespace-split query contained in its normalized title
plus 15 more per token the title starts with; the result is exactly the
sessions of positive score (a permutation of that filtering), in
non-increasing score order, and the sessions at any fixed score keep their
original relative order (stable ties). -/
theorem C6_search_ranking (query : String) (chats : List ChatSession)
    (c : ChatSession) (v : Nat) (hq : jsTrim query ≠ "") :
    chatScore query c =
        10 * (queryTokens query).countP
            (fun t => strIncludes (normalize c.title) t) +
          15 * (queryTokens query).countP
            (fun t => strStartsWith (normalize c.title) t) ∧
      (searchChats query chats).Pairwise
        (fun a b => chatScore query b ≤ chatScore query a) ∧
      (searchChats query chats).Perm
        (chats.filter (fun x => 0 < chatScore query x)) ∧
      (searchChats query chats).filter (fun x => chatScore query x = v) =
        chats.filter
          (fun x =>
            decide (0 < chatScore query x) &&
              decide (chatScore query x = v)) := by
  have hsearch : searchChats query chats =
      (sortByScoreDesc
        ((chats.map (fun chat => (chat, chatScore query chat))).filter
          (fun r => 0 < r.2))).map (fun r => r.1) := by
    rw [searchChats, if_neg hq]
    rfl
  have hmem_filtered :
      ∀ p ∈ (chats.map (fun chat => (chat, chatScore query chat))).filter
          (fun r => 0 < r.2),
        p.2 = chatScore query p.1 := by
    intro p hp
    have hp' := List.mem_of_mem_filter hp
    rcases List.mem_map.mp hp' with ⟨c0, -, rfl⟩
    rfl
  have hmem_sorted :
      ∀ p ∈ sortByScoreDesc
          ((chats.map (fun chat => (chat, chatScore query chat))).filter
            (fun r => 0 < r.2)),
        p.2 = chatScore query p.1 := by
    intro p hp
    exact hmem_filtered p ((perm_sortByScoreDesc _).mem_iff.mp hp)
  refine ⟨?_, ?_, ?_, ?_⟩
  · rw [chatScore]
    exact scoreMatch_eq_countP _ _
  · rw [hsearch]
    apply (List.pairwise_map).mpr
    apply List.Pairwise.imp_of_mem ?himp (sorted_sortByScoreDesc _)
    intro a b ha hb hr
    rw [← hmem_sorted a ha, ← hmem_sorted b hb]
    exact hr
  · rw [hsearch]
    apply ((perm_sortByScoreDesc _).map (fun r : ChatSession × Nat => r.1)).trans
    rw [List.filter_map, List.map_map]
    simp only [Function.comp_def]
    simp
  · rw [hsearch, List.filter_map]
    have hcongr :
        (sortByScoreDesc
            ((chats.map (fun chat => (chat, chatScore query chat))).filter
              (fun r => 0 < r.2))).filter
            ((fun x => decide (chatScore query x = v)) ∘ (fun r => r.1)) =
          (sortByScoreDesc
            ((chats.map (fun chat => (chat, chatScore query chat))).filter
              (fun r => 0 < r.2))).filter (fun p => p.2 = v) := by
      apply List.filter_congr
      intro p hp
      simp only [Function.comp_def]
      rw [hmem_sorted p hp]
    rw [hcongr, filter_sortByScoreDesc, List.filter_filter, List.filter_map,
      List.map_map]
    simp only [Function.comp_def]
    simp [Bool.and_comm]

theorem C6_search_ranking_witness :
    jsTrim "a" ≠ "" ∧
      (chatScore "a" ⟨"1", "Apple", 1⟩ =
          10 * (queryTokens "a").countP
              (fun t =>
                strIncludes (normalize (⟨"1", "Apple", 1⟩ : ChatSession).title)
                  t) +
            15 * (queryTokens "a").countP
              (fun t =>
                strStartsWith
                  (normalize (⟨"1", "Apple", 1⟩ : ChatSession).title) t) ∧
        (searchChats "a"
            [⟨"2", "Banana", 2⟩, ⟨"3", "Cabbage", 3⟩,
              ⟨"1", "Apple", 1⟩]).Pairwise
          (fun a b => chatScore "a" b ≤ chatScore "a" a) ∧
        (searchChats "a"
            [⟨"2", "Banana", 2⟩, ⟨"3", "Cabbage", 3⟩,
              ⟨"1", "Apple", 1⟩]).Perm
          (([⟨"2", "Banana", 2⟩, ⟨"3", "Cabbage", 3⟩,
              (⟨"1", "Apple", 1⟩ : ChatSession)]).filter
            (fun x => 0 < chatScore "a" x)) ∧
        (searchChats "a"
            [⟨"2", "Banana", 2⟩, ⟨"3", "Cabbage", 3⟩,
              ⟨"1", "Apple", 1⟩]).filter
            (fun x => chatScore "a" x = 10) =
          ([⟨"2", "Banana", 2⟩, ⟨"3", "Cabbage", 3⟩,
              (⟨"1", "Apple", 1⟩ : ChatSession)]).filter
            (fun x =>
              decide (0 < chatScore "a" x) && decide (chatScore "a" x = 10))) :=
  ⟨by decide,
   C6_search_ranking "a"
     [⟨"2", "Banana", 2⟩, ⟨"3", "Cabbage", 3⟩, ⟨"1", "Apple", 1⟩]
     ⟨"1", "Apple", 1⟩ 10 (by decide)⟩

end ChatApp
